import Mathlib

/-!
Formal model of the benchmark execution worker (consumer service): case and
experiment status persistence (`infrastructure/db_repository.py`), trajectory
resolution (`app/message_processor.py`, `infrastructure/otel_collector.py`,
`infrastructure/trace_repository.py`, `domain/otel_mapper.py`), evaluator score
extraction (`runtime/evaluator_client.py`), inspect batch exit handling
(`runtime/inspect_runner.py`), the idempotency gate (`app/message_processor.py`
with `infrastructure/locks.py`), OTLP span ingestion
(`infrastructure/otel_collector.py`) and message parsing (`domain/parser.py`).
-/

/-- Insertion of `a` into `l` before the first element that is strictly greater
(`lt a b`); used to model Python `sorted`, which is a stable sort. -/
def insertByLt {α : Type} (lt : α → α → Bool) (a : α) : List α → List α
  | [] => [a]
  | b :: l => if lt a b then a :: b :: l else b :: insertByLt lt a l

/-- Stable sort by a strict comparison, modelling Python `sorted(key=...)`. -/
def sortByLt {α : Type} (lt : α → α → Bool) : List α → List α
  | [] => []
  | a :: l => insertByLt lt a (sortByLt lt l)

/-- Strict order on strings as a Bool, modelling the comparison of the string
components of Python sort keys. -/
def strLtB (a b : String) : Bool := decide (a < b)

/-- Case statuses stored in `run_cases.status`. -/
inductive CaseStatus where
  | pending
  | queued
  | running
  | trajectory
  | scoring
  | success
  | failed
  | timeout
deriving DecidableEq

/-- Terminal case statuses. -/
def CaseStatus.isTerminal : CaseStatus → Bool
  | .success | .failed | .timeout => true
  | _ => false

/-- The `allowed_from` list computed by `_mark_case_status_postgres`
(db_repository.py:263): only the targets `running`, `trajectory` and `scoring`
get a guard; every other target (the terminal statuses included) keeps
`allowed_from = None`. -/
def markCaseStatusAllowedFrom : CaseStatus → Option (List CaseStatus)
  | .running => some [.pending, .queued, .trajectory]
  | .trajectory => some [.running, .scoring]
  | .scoring => some [.running, .trajectory]
  | _ => none

/-- Single-row view of `_update_case_status_postgres` (db_repository.py:281):
with `allowed_from = None` no `AND status = ANY(...)` clause is emitted and the
row is updated unconditionally; with a list, rows whose current status is
outside the list are left untouched (zero rows updated). -/
def updateCaseStatus (allowedFrom : Option (List CaseStatus)) (new cur : CaseStatus) : CaseStatus :=
  match allowedFrom with
  | none => new
  | some allowed => if cur ∈ allowed then new else cur

/-- `mark_case_status` for one case (db_repository.py:263). -/
def markCaseStatus (new cur : CaseStatus) : CaseStatus :=
  updateCaseStatus (markCaseStatusAllowedFrom new) new cur

/-- `_mark_cases_queued_postgres` restricted to one case (db_repository.py:255):
target `queued` with guard `allowed_from = ["pending"]`. -/
def markCaseQueued (cur : CaseStatus) : CaseStatus :=
  updateCaseStatus (some [.pending]) .queued cur

/-- The status write of `_persist_case_result_postgres` (db_repository.py:176):
`UPDATE run_cases SET status = ... WHERE id = ...`, with no guard on the current
status of the row. -/
def persistCaseStatusWrite (new _cur : CaseStatus) : CaseStatus := new

/-- The allowed-from table asserted by the specification (section 4.2), under
which a terminal status may be entered only from a non-terminal status. -/
def specAllowedFrom : CaseStatus → List CaseStatus
  | .queued => [.pending]
  | .running => [.pending, .queued, .trajectory]
  | .trajectory => [.running, .scoring]
  | .scoring => [.running, .trajectory]
  | .success | .failed | .timeout => [.pending, .queued, .running, .trajectory, .scoring]
  | .pending => []

/-- Experiment queue statuses stored in `experiments.queue_status`. -/
inductive QueueStatus where
  | idle
  | queued
  | testCase
  | consuming
  | done
  | failed
  | manualTerminated
deriving DecidableEq

/-- The slice of an `experiments` row touched by the reconciler. -/
structure Experiment where
  queueStatus : QueueStatus
  startedAt : Option Nat
  finishedAt : Option Nat
deriving DecidableEq

/-- Membership of `status IN ('running','trajectory','scoring')`. -/
def isActiveCase : CaseStatus → Bool
  | .running | .trajectory | .scoring => true
  | _ => false

/-- Membership of `status IN ('pending','queued')`. -/
def isPendingCase : CaseStatus → Bool
  | .pending | .queued => true
  | _ => false

/-- Membership of `status IN ('failed','timeout')`. -/
def isFailedCase : CaseStatus → Bool
  | .failed | .timeout => true
  | _ => false

/-- Derived run status of `_refresh_experiment_status_postgres`
(db_repository.py:328), computed from the counts over the latest cases of the
experiment. -/
def runStatusOf (cases : List CaseStatus) : QueueStatus :=
  let total := cases.length
  let running := cases.countP isActiveCase
  let pending := cases.countP isPendingCase
  let success := cases.countP (fun s => s == CaseStatus.success)
  let failed := cases.countP isFailedCase
  if 0 < total ∧ (0 < running ∨ 0 < pending) then .consuming
  else if 0 < total ∧ failed = 0 then .done
  else if 0 < total ∧ success = 0 then .failed
  else if 0 < total then .done
  else .idle

/-- `_refresh_experiment_status_postgres` (db_repository.py:328): early return
on `manual_terminated`; for `test_case` the same value is written back instead
of the derived run status; `started_at` and `finished_at` are driven by the
derived run status. `now` stands for `CURRENT_TIMESTAMP`. -/
def refreshExperimentStatus (exp : Experiment) (cases : List CaseStatus) (now : Nat) : Experiment :=
  if exp.queueStatus = QueueStatus.manualTerminated then exp
  else
    let keepTestCaseStatus := exp.queueStatus = QueueStatus.testCase
    let runStatus := runStatusOf cases
    let nextQueueStatus := if keepTestCaseStatus then QueueStatus.testCase else runStatus
    { queueStatus := nextQueueStatus
      startedAt :=
        if runStatus = QueueStatus.consuming ∧ exp.startedAt = none then some now
        else exp.startedAt
      finishedAt :=
        if runStatus = QueueStatus.done ∨ runStatus = QueueStatus.failed then some now
        else exp.finishedAt }

/-- One `run_case_scores` row as inserted by `_persist_case_result_postgres`. -/
structure ScorerRow where
  scorerKey : String
  score : Rat
  reason : String
deriving DecidableEq

/-- The slice of a `run_cases` row touched by the score recomputation. -/
structure RunCaseRow where
  status : String
  finalScore : Option Rat
deriving DecidableEq

/-- The per-case persistent state `_persist_case_result_postgres` operates on:
the case row plus its `run_case_scores` rows. -/
structure CaseScoreState where
  row : RunCaseRow
  scores : List ScorerRow
deriving DecidableEq

/-- The part of a `CaseExecutionResult` consumed by the score persistence. -/
structure CaseResultInput where
  status : String
  scorerResults : List ScorerRow
deriving DecidableEq

def ratSum (l : List Rat) : Rat := l.foldr (· + ·) 0

/-- SQL `AVG(score)` over the scorer rows of one case. -/
def scoresAvg (rows : List ScorerRow) : Rat := ratSum (rows.map (·.score)) / (rows.length : Rat)

/-- `_persist_case_result_postgres` (db_repository.py:151) restricted to the
status, the scorer rows and `final_score`: update the case row, delete all
scorer rows of the case, insert the scorer rows of the result, and recompute
`final_score = AVG(score)` only when the result carries at least one scorer row
(`if result.scorer_results:`); otherwise `final_score` is not touched. -/
def persistCaseResult (result : CaseResultInput) (st : CaseScoreState) : CaseScoreState :=
  let updated : CaseScoreState := { row := { st.row with status := result.status }, scores := [] }
  let inserted : CaseScoreState := { updated with scores := result.scorerResults }
  if result.scorerResults.isEmpty then inserted
  else { inserted with row := { inserted.row with finalScore := some (scoresAvg inserted.scores) } }

/-- Status and error message assigned after the case exec in
`_run_inspect_eval_batch` (inspect_runner.py:292): status `success` iff the
exec returncode is 0, otherwise `failed` with error message
`E_AGENT_EXIT_NON_ZERO: exit code <code>`. -/
def inspectCaseOutcome (returncode : Int) : String × String :=
  (if returncode = 0 then "success" else "failed",
   if returncode = 0 then "" else "E_AGENT_EXIT_NON_ZERO: exit code " ++ toString returncode)

/-- The error message produced on a non-zero exit by the docker one-shot runner
(`infrastructure/docker_runner.py:89`), which is the message the claim quotes. -/
def dockerRunnerError (exitCode : Int) : String :=
  "E_CASE_EXEC_NON_ZERO: exit code " ++ toString exitCode

/-- Normalized span record: an in-memory store entry or an `otel_traces` row.
Times are carried as epoch milliseconds, already converted: `startMs` stands for
`_epoch_ms(start_time or created_at)` and `endMs` for `_to_epoch_ms(end_time)`
(0 when the end time is absent or unparsable). `rowId` is the DB surrogate id
used as the SQL ORDER BY tiebreaker. -/
structure SpanRec where
  rowId : Nat
  runCaseAttr : Option Nat
  startMs : Int
  endMs : Int
  spanId : String
  parentSpanId : Option String
  name : String
  status : Option String
deriving DecidableEq

/-- Normalized log record (an `otel_logs` row); `eventMs` stands for
`_to_epoch_ms(event_time or observed_time or created_at)`. -/
structure LogRec where
  rowId : Nat
  runCaseAttr : Option Nat
  eventMs : Int
  traceId : String
  spanId : String
  severityText : Option String
  serviceName : Option String
  bodyText : String
deriving DecidableEq

/-- `OTelSpanStore.fetch_spans_by_run_case` (otel_collector.py:228): filter the
in-memory list by the `benchmark.run_case_id` attribute and the 60 s widened
window around `[start_ms, end_ms]`, sort by `(start_ms, span_id)`, take
`max 1 limit` records. -/
def storeFetchSpansByRunCase (store : List SpanRec) (runCaseId : Nat)
    (startMs endMs : Int) (limit : Nat) : List SpanRec :=
  let lower := startMs - 60000
  let upper := endMs + 60000
  let matched := store.filter fun s =>
    s.runCaseAttr == some runCaseId && decide (lower ≤ s.startMs) && decide (s.startMs ≤ upper)
  (sortByLt (fun a b =>
      decide (a.startMs < b.startMs) || (a.startMs == b.startMs && strLtB a.spanId b.spanId))
    matched).take (max 1 limit)

/-- `TraceRepository._fetch_postgres` (trace_repository.py:65): the `otel_traces`
rows of the case inside the 60 s widened window,
`ORDER BY COALESCE(start_time, created_at) ASC, id ASC`, `LIMIT max(1, limit)`. -/
def dbFetchSpansByRunCase (table : List SpanRec) (runCaseId : Nat)
    (startMs endMs : Int) (limit : Nat) : List SpanRec :=
  let lower := startMs - 60000
  let upper := endMs + 60000
  let matched := table.filter fun s =>
    s.runCaseAttr == some runCaseId && decide (lower ≤ s.startMs) && decide (s.startMs ≤ upper)
  (sortByLt (fun a b =>
      decide (a.startMs < b.startMs) || (a.startMs == b.startMs && decide (a.rowId < b.rowId)))
    matched).take (max 1 limit)

/-- `TraceRepository._fetch_logs_postgres` (trace_repository.py:297): the
`otel_logs` rows of the case inside the 60 s widened window,
`ORDER BY COALESCE(event_time, created_at) ASC, id ASC`, `LIMIT max(1, limit)`. -/
def dbFetchLogsByRunCase (table : List LogRec) (runCaseId : Nat)
    (startMs endMs : Int) (limit : Nat) : List LogRec :=
  let lower := startMs - 60000
  let upper := endMs + 60000
  let matched := table.filter fun l =>
    l.runCaseAttr == some runCaseId && decide (lower ≤ l.eventMs) && decide (l.eventMs ≤ upper)
  (sortByLt (fun a b =>
      decide (a.eventMs < b.eventMs) || (a.eventMs == b.eventMs && decide (a.rowId < b.rowId)))
    matched).take (max 1 limit)

/-- `OTelTraceRepository.fetch_spans_by_run_case` (otel_collector.py:406): serve
from the in-memory store; only when that result is empty query the DB fallback
repository (wired to `TraceRepository` in `app/worker.py`). -/
def otelTraceRepoFetchSpans (store dbSpans : List SpanRec) (runCaseId : Nat)
    (startMs endMs : Int) (limit : Nat) : List SpanRec :=
  let spans := storeFetchSpansByRunCase store runCaseId startMs endMs limit
  if spans.isEmpty then dbFetchSpansByRunCase dbSpans runCaseId startMs endMs limit
  else spans

/-- One trajectory step produced by `domain/otel_mapper.py`. Log-derived steps
carry `source = "otel.log"` and a trace id; span-derived steps carry a parent
span id and no `source` key. The `attributes` and `events` payloads of the
steps are not modelled. -/
structure TrajStep where
  step : Nat
  source : Option String
  traceId : Option String
  spanId : String
  parentSpanId : Option String
  name : String
  startTimeMs : Int
  endTimeMs : Int
  latencyMs : Int
  status : Option String
deriving DecidableEq

/-- Python `x or default` for an optional string: the empty string is falsy. -/
def orElseStr (o : Option String) (default : String) : String :=
  match o with
  | some s => if s = "" then default else s
  | none => default

/-- `map_spans_to_trajectory` (otel_mapper.py:7): sort by
`(start_ms, end_ms, span_id)`, number the steps from 1; the end time falls back
to the start time when it converts to 0, and the latency is clamped at 0. -/
def mapSpansToTrajectory (spans : List SpanRec) : List TrajStep :=
  let ordered := sortByLt (fun a b =>
    decide (a.startMs < b.startMs)
    || (a.startMs == b.startMs
        && (decide (a.endMs < b.endMs) || (a.endMs == b.endMs && strLtB a.spanId b.spanId)))) spans
  (List.enumFrom 1 ordered).map fun p =>
    let s := p.2
    let endEff : Int := if s.endMs = 0 then s.startMs else s.endMs
    { step := p.1
      source := none
      traceId := none
      spanId := s.spanId
      parentSpanId := s.parentSpanId
      name := if s.name = "" then "unnamed-span" else s.name
      startTimeMs := s.startMs
      endTimeMs := endEff
      latencyMs := max 0 (endEff - s.startMs)
      status := s.status }

/-- `map_logs_to_trajectory` (otel_mapper.py:34): sort by
`(event_ms, trace_id, span_id)`, number the steps from 1; each step has
`source = "otel.log"`, the severity as name (default `log`) and zero latency. -/
def mapLogsToTrajectory (logs : List LogRec) : List TrajStep :=
  let ordered := sortByLt (fun a b =>
    decide (a.eventMs < b.eventMs)
    || (a.eventMs == b.eventMs
        && (strLtB a.traceId b.traceId || (a.traceId == b.traceId && strLtB a.spanId b.spanId)))) logs
  (List.enumFrom 1 ordered).map fun p =>
    let l := p.2
    { step := p.1
      source := some "otel.log"
      traceId := some l.traceId
      spanId := l.spanId
      parentSpanId := none
      name := orElseStr l.severityText "log"
      startTimeMs := l.eventMs
      endTimeMs := l.eventMs
      latencyMs := 0
      status := l.severityText }

/-- `MessageProcessor._trajectory_from_traces` (message_processor.py:246): the
Repository log table is queried first over `[now - 15 min, now + 60 s]`; the
Repository span table is queried only when the mapped logs are empty. -/
def trajectoryFromTraces (logTable : List LogRec) (spanTable : List SpanRec)
    (runCaseId : Nat) (nowMs : Int) : List TrajStep :=
  let mappedLogs :=
    mapLogsToTrajectory (dbFetchLogsByRunCase logTable runCaseId (nowMs - 900000) (nowMs + 60000) 4000)
  if mappedLogs.isEmpty then
    mapSpansToTrajectory (dbFetchSpansByRunCase spanTable runCaseId (nowMs - 900000) (nowMs + 60000) 2000)
  else mappedLogs

/-- Modelled from the spec: `InspectRunner._resolve_trajectory` is called by the
wiring in `app/worker.py` (which passes
`trace_repository = OTelTraceRepository(store, fallback_repository=TraceRepository)`)
and by the OTel fallback test, but its body is absent from the
`runtime/inspect_runner.py` under `src/`. Per spec section 4.5 and those
callers, it queries the configured trace repository for the spans of the case
over the execution window of the case, maps them, and keeps the stdout-parsed
fallback trajectory when nothing is found. -/
def runnerResolveTrajectory (store dbSpans : List SpanRec) (runCaseId : Nat)
    (startedMs finishedMs : Int) (fallbackTraj : List TrajStep) : List TrajStep :=
  let mapped := mapSpansToTrajectory (otelTraceRepoFetchSpans store dbSpans runCaseId startedMs finishedMs 1000)
  if mapped.isEmpty then fallbackTraj else mapped

/-- End-to-end trajectory resolution for a run case whose parsed trajectory is
empty: the runner resolution first (its result reaches
message_processor.py:185), then — when the trajectory is still empty — the
processor patch `_trajectory_from_traces` (message_processor.py:187). -/
def resolveEmptyTrajectory (store dbSpans : List SpanRec) (logTable : List LogRec)
    (runCaseId : Nat) (startedMs finishedMs nowMs : Int) : List TrajStep :=
  let fromRunner := runnerResolveTrajectory store dbSpans runCaseId startedMs finishedMs []
  if fromRunner.isEmpty then trajectoryFromTraces logTable dbSpans runCaseId nowMs
  else fromRunner

/-- The resolution order asserted by the claim (spec section 4.5): the in-memory
span index first, otherwise the Repository log table, and only otherwise the
Repository span table. -/
def claimOrderResolve (store dbSpans : List SpanRec) (logTable : List LogRec)
    (runCaseId : Nat) (startMs endMs : Int) : List TrajStep :=
  let memSpans := storeFetchSpansByRunCase store runCaseId startMs endMs 1000
  if !memSpans.isEmpty then mapSpansToTrajectory memSpans
  else
    let logs := dbFetchLogsByRunCase logTable runCaseId startMs endMs 2000
    if !logs.isEmpty then mapLogsToTrajectory logs
    else mapSpansToTrajectory (dbFetchSpansByRunCase dbSpans runCaseId startMs endMs 2000)

/-- The `score` field of the evaluator JSON response as seen by `float()`:
absent key, a JSON number, a numeric string `float()` accepts, or a value
`float()` rejects (null, a non-numeric string, an array or an object). -/
inductive ScoreField where
  | absent
  | num (q : Rat)
  | numStr (q : Rat)
  | uncoercible
deriving DecidableEq

/-- Shape of the evaluator response content consumed by `_extract_score`
(evaluator_client.py:209): non-string or blank content, a string that is not
valid JSON, or a parsed JSON object with its optional `score` and `reason`
fields. -/
inductive EvalContent where
  | empty
  | invalidJson (raw : String)
  | jsonObj (score : ScoreField) (reason : Option String)
deriving DecidableEq

/-- Python `str(parsed.get("reason") or "no reason provided")`: an absent or
empty reason falls back to the default text. -/
def reasonText : Option String → String
  | some r => if r = "" then "no reason provided" else r
  | none => "no reason provided"

/-- `_extract_score` (evaluator_client.py:209): a JSON `score` equal to 0, 0.5
or 1 is returned as-is with the reason; otherwise `float(score)` feeds the
bucketization staircase (at least 0.9 gives 1.0, at least 0.6 gives 0.5, else
0.0); empty content, invalid JSON, a missing score and an uncoercible score
yield the sentinel −1.0 with a coded reason. The Python membership test
`score in (0, 0.5, 1)` is false for numeric strings, so a numeric string always
goes through the staircase. -/
def extractScore : EvalContent → Rat × String
  | .empty => (-1, "E_EVALUATOR_EMPTY_CONTENT")
  | .invalidJson raw => (-1, "E_EVALUATOR_INVALID_JSON: " ++ raw.take 200)
  | .jsonObj score reason =>
    let r := reasonText reason
    match score with
    | .num q =>
      if q = 0 ∨ q = 1/2 ∨ q = 1 then (q, r)
      else if q ≥ 9/10 then (1, r)
      else if q ≥ 3/5 then (1/2, r)
      else (0, r)
    | .numStr q =>
      if q ≥ 9/10 then (1, r)
      else if q ≥ 3/5 then (1/2, r)
      else (0, r)
    | .absent => (-1, "E_EVALUATOR_SCORE_INVALID: " ++ r)
    | .uncoercible => (-1, "E_EVALUATOR_SCORE_INVALID: " ++ r)

/-- Python `int(...)` truncation toward zero on a rational value. -/
def pyTrunc (q : Rat) : Int := if q < 0 then -⌊-q⌋ else ⌊q⌋

/-- Numeric branch of `_to_epoch_ms` (otel_mapper.py:81): a value above 1e12 is
divided by 1e6, a value above 1e9 is returned as-is, and a smaller value is
multiplied by 1000. -/
def toEpochMsNum (v : Rat) : Int :=
  if v > 1000000000000 then pyTrunc (v / 1000000)
  else if v > 1000000000 then pyTrunc v
  else pyTrunc (v * 1000)

/-- The numeric conversion as worded by the claim: above 1e12 nanoseconds
(divide by 1e6), above 1e9 seconds (multiply by 1000), otherwise milliseconds
taken directly. -/
def claimEpochMsNum (v : Rat) : Int :=
  if v > 1000000000000 then pyTrunc (v / 1000000)
  else if v > 1000000000 then pyTrunc (v * 1000)
  else pyTrunc v

/-- Redis-side state of the idempotency gate: the in-flight `processing` marker
and the persistent `processed` marker (`infrastructure/locks.py`). -/
structure GateState where
  processingHeld : Bool
  processedMarked : Bool
deriving DecidableEq

/-- The gate operations issued by `handle_raw_message`. -/
inductive GateOp where
  | checkProcessed
  | acquireProcessing
  | markProcessed
  | releaseProcessing
deriving DecidableEq

/-- How one consumption of a message ends. -/
inductive GateOutcome where
  | skippedProcessed
  | skippedProcessing
  | done
  | raised
deriving DecidableEq

/-- One run of the gate logic: final marker state, the sequence of gate
operations in execution order, and the outcome. -/
structure GateRun where
  state : GateState
  trace : List GateOp
  outcome : GateOutcome
deriving DecidableEq

/-- Gate discipline of `handle_raw_message` (message_processor.py:40) over the
lock of `infrastructure/locks.py`: `already_processed` is consulted first; a
hit returns. `acquire_processing` (SET NX with TTL) is consulted next; a miss
returns. Then `_process_message` runs: on success `mark_processed` is written
and then `release_processing`; on an exception `release_processing` runs and
the exception is re-raised. `processOk` stands for `_process_message`
returning without raising. -/
def handleRawMessageGate (processOk : Bool) (st : GateState) : GateRun :=
  if st.processedMarked then
    { state := st, trace := [.checkProcessed], outcome := .skippedProcessed }
  else if st.processingHeld then
    { state := st, trace := [.checkProcessed, .acquireProcessing], outcome := .skippedProcessing }
  else if processOk then
    { state := { processingHeld := false, processedMarked := true }
      trace := [.checkProcessed, .acquireProcessing, .markProcessed, .releaseProcessing]
      outcome := .done }
  else
    { state := { processingHeld := false, processedMarked := st.processedMarked }
      trace := [.checkProcessed, .acquireProcessing, .releaseProcessing]
      outcome := .raised }

/-- The claimed gate discipline as a decidable predicate over one run: the
processed check leads and precedes any acquire, the processed marker is set
before the in-flight marker is released, a successful run marks processed and
releases, and a failing run releases (leaving processed unset) and re-raises. -/
def gateDiscipline (r : GateRun) : Bool :=
  (r.trace.head? == some GateOp.checkProcessed)
  && (!(r.trace.contains GateOp.acquireProcessing)
      || decide (r.trace.indexOf GateOp.checkProcessed < r.trace.indexOf GateOp.acquireProcessing))
  && (!(r.trace.contains GateOp.markProcessed)
      || decide (r.trace.indexOf GateOp.markProcessed < r.trace.indexOf GateOp.releaseProcessing))
  && (match r.outcome with
      | .done =>
        r.trace.contains GateOp.markProcessed && r.trace.contains GateOp.releaseProcessing
          && !r.state.processingHeld && r.state.processedMarked
      | .raised =>
        r.trace.contains GateOp.releaseProcessing && !(r.trace.contains GateOp.markProcessed)
          && !r.state.processingHeld && !r.state.processedMarked
      | _ => true)

/-- In-memory span list plus the rows persisted by the storage sink
(`OTelSpanStore` at otel_collector.py:202, wired to `TraceIngestRepository`). -/
structure SpanStoreState (α : Type) where
  mem : List α
  storage : List α
deriving DecidableEq

/-- Outcome of the `persist_spans` call on the sink: no sink configured,
success, or an exception (caught and logged as `E_OTEL_SPAN_PERSIST_FAILED`). -/
inductive SinkOutcome where
  | absent
  | ok
  | raises
deriving DecidableEq

/-- `OTelSpanStore.ingest_spans` (otel_collector.py:213): an empty batch short
circuits with 0; otherwise the records are appended to the in-memory list under
the lock, the sink `persist_spans` is attempted with exceptions swallowed, and
`len(spans)` is returned — the `inserted` count of the HTTP 200 response. -/
def ingestSpans {α : Type} (sink : SinkOutcome) (spans : List α) (st : SpanStoreState α) :
    SpanStoreState α × Nat :=
  if spans.isEmpty then (st, 0)
  else
    let appended : SpanStoreState α := { st with mem := st.mem ++ spans }
    match sink with
    | .ok => ({ appended with storage := appended.storage ++ spans }, spans.length)
    | .absent => (appended, spans.length)
    | .raises => (appended, spans.length)

/-- The fields of the inbound payload relevant to the version gate of
`parse_message` (parser.py:18); `schema_version` and `message_id` may be
absent from the JSON object. -/
structure RawPayload where
  messageType : String
  schemaVersion : Option String
  messageId : Option String
deriving DecidableEq

/-- The header slice of the parsed `ExperimentRunRequested` message. -/
structure ParsedHeader where
  messageType : String
  schemaVersion : String
  messageId : String
deriving DecidableEq

/-- Version gate of `parse_message` (parser.py:18):
`payload.get("schema_version", "v2")` defaults an absent key to `v2`; a value
different from `v2` raises `E_UNSUPPORTED_SCHEMA_VERSION`; `message_id`
defaults to the empty string. -/
def parseMessage (p : RawPayload) : Except String ParsedHeader :=
  let schemaVersion := p.schemaVersion.getD "v2"
  if schemaVersion ≠ "v2" then
    Except.error ("E_UNSUPPORTED_SCHEMA_VERSION: " ++ schemaVersion)
  else
    Except.ok
      { messageType := p.messageType
        schemaVersion := schemaVersion
        messageId := p.messageId.getD "" }

/-- A case state whose `final_score` was set by an earlier persist call. -/
def c3PriorState : CaseScoreState :=
  { row := { status := "success", finalScore := some 1 }
    scores := [{ scorerKey := "task_success", score := 1, reason := "ok" }] }

/-- A DB span-table row matching run case 7 inside the query window. -/
def c5Span : SpanRec :=
  { rowId := 1, runCaseAttr := some 7, startMs := 1500, endMs := 1600,
    spanId := "s1", parentSpanId := none, name := "tool_call", status := some "ok" }

/-- A DB log-table row matching run case 7 inside the query window. -/
def c5Log : LogRec :=
  { rowId := 1, runCaseAttr := some 7, eventMs := 1500, traceId := "t1",
    spanId := "l1", severityText := some "INFO", serviceName := some "benchmark-agent",
    bodyText := "hello" }

/-- C1 counterexample: the repository lets a terminal status overwrite another
terminal status. `mark_case_status` with target `success` carries no
`allowed_from` guard and the `persist_case_result` status write is
unconditional, so a case whose current status is the terminal `failed` is
still updated to `success` — although `failed` is terminal and is not in the
allowed-from set the claim asserts for terminal targets, the update does not
leave the row unchanged. -/
theorem c1_counterexample :
    markCaseStatus CaseStatus.success CaseStatus.failed = CaseStatus.success
    ∧ persistCaseStatusWrite CaseStatus.success CaseStatus.failed = CaseStatus.success
    ∧ CaseStatus.failed.isTerminal = true
    ∧ CaseStatus.failed ∉ specAllowedFrom CaseStatus.success := by
  refine ⟨rfl, rfl, rfl, ?_⟩
  decide

/-- C1 amended: updates to the non-terminal targets `running`, `trajectory`,
`scoring` (via `mark_case_status`) and `queued` (via `mark_cases_queued`) are
guarded by the allowed-from sets of the specification table and change nothing
from any other current status; but the terminal targets `success`, `failed`
and `timeout` are written unconditionally — `mark_case_status` emits no
allowed-from clause for them and the `persist_case_result` status write
updates the row by id only — so a terminal status may be entered from any
current status, terminal ones included. -/
theorem c1_theorem :
    (∀ cur, markCaseStatus .running cur =
      (if cur ∈ specAllowedFrom .running then .running else cur))
    ∧ (∀ cur, markCaseStatus .trajectory cur =
      (if cur ∈ specAllowedFrom .trajectory then .trajectory else cur))
    ∧ (∀ cur, markCaseStatus .scoring cur =
      (if cur ∈ specAllowedFrom .scoring then .scoring else cur))
    ∧ (∀ cur, markCaseQueued cur =
      (if cur ∈ specAllowedFrom .queued then .queued else cur))
    ∧ (∀ cur, markCaseStatus .success cur = .success)
    ∧ (∀ cur, markCaseStatus .failed cur = .failed)
    ∧ (∀ cur, markCaseStatus .timeout cur = .timeout)
    ∧ (∀ new cur, persistCaseStatusWrite new cur = new) :=
  ⟨fun cur => by cases cur <;> rfl,
   fun cur => by cases cur <;> rfl,
   fun cur => by cases cur <;> rfl,
   fun cur => by cases cur <;> rfl,
   fun _ => rfl, fun _ => rfl, fun _ => rfl, fun _ _ => rfl⟩

/-- C2: reconciliation never changes a `manual_terminated` or `test_case`
queue status: `manual_terminated` returns before any write, and for
`test_case` the same value is written back instead of the derived run status. -/
theorem c2_theorem (exp : Experiment) (cases : List CaseStatus) (now : Nat)
    (h : exp.queueStatus = QueueStatus.manualTerminated ∨ exp.queueStatus = QueueStatus.testCase) :
    (refreshExperimentStatus exp cases now).queueStatus = exp.queueStatus := by
  rcases h with h | h <;> simp [refreshExperimentStatus, h]

/-- C2 witness: a `test_case` experiment with one successful case keeps
`queue_status = test_case` through reconciliation. -/
theorem c2_theorem_witness :
    (refreshExperimentStatus ⟨QueueStatus.testCase, none, none⟩ [CaseStatus.success] 5).queueStatus
      = QueueStatus.testCase :=
  c2_theorem ⟨QueueStatus.testCase, none, none⟩ [CaseStatus.success] 5 (Or.inr rfl)

/-- C3 counterexample: persisting a result that carries no scorer rows deletes
all scorer rows of the case but leaves the previous non-null `final_score` in
place, so "final_score is null when no scorer rows exist" fails. -/
theorem c3_counterexample :
    (persistCaseResult { status := "failed", scorerResults := [] } c3PriorState).scores = []
    ∧ (persistCaseResult { status := "failed", scorerResults := [] } c3PriorState).row.finalScore
        = some 1 :=
  ⟨rfl, rfl⟩

/-- C3 amended: after `persist_case_result` the scorer rows of the case are
exactly the rows of the result, and `final_score` equals their arithmetic mean
when at least one exists; with no scorer rows `final_score` is left unchanged
(so it is null only when it already was). -/
theorem c3_theorem (result : CaseResultInput) (st : CaseScoreState) :
    (persistCaseResult result st).scores = result.scorerResults
    ∧ (persistCaseResult result st).row.finalScore =
        (if result.scorerResults.isEmpty then st.row.finalScore
         else some (scoresAvg result.scorerResults)) := by
  unfold persistCaseResult
  by_cases h : result.scorerResults.isEmpty <;> simp [h]

/-- C4 counterexample: at exit code 2 the inspect batch records `failed` with
`E_AGENT_EXIT_NON_ZERO: exit code 2`, not the claimed
`E_CASE_EXEC_NON_ZERO: exit code 2`; the latter message is produced only by
the docker one-shot runner, a different code path. -/
theorem c4_counterexample :
    (inspectCaseOutcome 2).1 = "failed"
    ∧ (inspectCaseOutcome 2).2 = "E_AGENT_EXIT_NON_ZERO: exit code 2"
    ∧ (inspectCaseOutcome 2).2 ≠ dockerRunnerError 2 := by
  refine ⟨rfl, ?_, ?_⟩ <;> decide

/-- C4 amended: for every executed run case the recorded status is `success`
iff the case-exec exit code is 0; any non-zero code records `failed` with
`error_message = "E_AGENT_EXIT_NON_ZERO: exit code <code>"`. -/
theorem c4_theorem (code : Int) :
    ((inspectCaseOutcome code).1 = "success" ↔ code = 0)
    ∧ ((inspectCaseOutcome code).1 = "failed" ↔ code ≠ 0)
    ∧ (inspectCaseOutcome code).2 =
        (if code = 0 then "" else "E_AGENT_EXIT_NON_ZERO: exit code " ++ toString code) := by
  unfold inspectCaseOutcome
  by_cases h : code = 0 <;> simp [h]

/-- C4 witness: the amended statement evaluated through the theorem at exit
codes 0 and 2. -/
theorem c4_theorem_witness :
    (inspectCaseOutcome 0).1 = "success" ∧ (inspectCaseOutcome 2).1 = "failed" :=
  ⟨(c4_theorem 0).1.mpr rfl, (c4_theorem 2).2.1.mpr (by decide)⟩

/-- C5 counterexample: with an empty in-memory index and one span row and one
log row both matching case 7 inside the window, the code resolves through the
span-table fallback of `OTelTraceRepository.fetch_spans_by_run_case` and
returns the span-derived step, while the claimed order (in-memory index, then
log table, then span table) would return the log-derived step: the log table
is not consulted before the span table. -/
theorem c5_counterexample :
    resolveEmptyTrajectory [] [c5Span] [c5Log] 7 1000 2000 2000
        = mapSpansToTrajectory [c5Span]
    ∧ claimOrderResolve [] [c5Span] [c5Log] 7 1000 2000
        = mapLogsToTrajectory [c5Log]
    ∧ resolveEmptyTrajectory [] [c5Span] [c5Log] 7 1000 2000 2000
        ≠ claimOrderResolve [] [c5Span] [c5Log] 7 1000 2000 := by
  refine ⟨?_, ?_, ?_⟩ <;> decide

/-- C5 amended: the spans of the in-memory index are preferred inside the span
query, and inside the processor patch the log table is consulted before the
span table; but when the in-memory index yields nothing the span query falls
back directly to the Repository span table, so the span table — not the log
table — is the second source overall; the log table is reached only when both
span sources produce an empty mapping. -/
theorem c5_theorem (store dbSpans : List SpanRec) (logTable : List LogRec)
    (runCaseId : Nat) (startedMs finishedMs nowMs : Int) :
    otelTraceRepoFetchSpans store dbSpans runCaseId startedMs finishedMs 1000 =
      (if (storeFetchSpansByRunCase store runCaseId startedMs finishedMs 1000).isEmpty
       then dbFetchSpansByRunCase dbSpans runCaseId startedMs finishedMs 1000
       else storeFetchSpansByRunCase store runCaseId startedMs finishedMs 1000)
    ∧ resolveEmptyTrajectory store dbSpans logTable runCaseId startedMs finishedMs nowMs =
      (if (mapSpansToTrajectory
            (otelTraceRepoFetchSpans store dbSpans runCaseId startedMs finishedMs 1000)).isEmpty
       then
        (if (mapLogsToTrajectory
              (dbFetchLogsByRunCase logTable runCaseId (nowMs - 900000) (nowMs + 60000) 4000)).isEmpty
         then mapSpansToTrajectory
                (dbFetchSpansByRunCase dbSpans runCaseId (nowMs - 900000) (nowMs + 60000) 2000)
         else mapLogsToTrajectory
                (dbFetchLogsByRunCase logTable runCaseId (nowMs - 900000) (nowMs + 60000) 4000))
       else mapSpansToTrajectory
              (otelTraceRepoFetchSpans store dbSpans runCaseId startedMs finishedMs 1000)) := by
  constructor
  · unfold otelTraceRepoFetchSpans
    by_cases h : (storeFetchSpansByRunCase store runCaseId startedMs finishedMs 1000).isEmpty
      <;> simp [h]
  · unfold resolveEmptyTrajectory runnerResolveTrajectory trajectoryFromTraces
    by_cases h1 : (mapSpansToTrajectory
        (otelTraceRepoFetchSpans store dbSpans runCaseId startedMs finishedMs 1000)).isEmpty
      <;> by_cases h2 : (mapLogsToTrajectory
        (dbFetchLogsByRunCase logTable runCaseId (nowMs - 900000) (nowMs + 60000) 4000)).isEmpty
      <;> simp [h1, h2]

/-- C6: a JSON score equal to 0, 0.5 or 1 is returned unchanged together with
the reason; any other float-coercible score — a number outside the set, or a
numeric string, whose membership test is always false — is bucketized (at
least 0.9 to 1.0, at least 0.6 to 0.5, else 0.0); empty content, non-JSON
content, a missing score and an uncoercible score yield the sentinel −1.0 with
the corresponding reason code. -/
theorem c6_theorem :
    (∀ r, extractScore (.jsonObj (.num 0) r) = (0, reasonText r))
    ∧ (∀ r, extractScore (.jsonObj (.num (1/2)) r) = (1/2, reasonText r))
    ∧ (∀ r, extractScore (.jsonObj (.num 1) r) = (1, reasonText r))
    ∧ (∀ q r, ¬(q = 0 ∨ q = 1/2 ∨ q = 1) →
        extractScore (.jsonObj (.num q) r) =
          ((if q ≥ 9/10 then 1 else if q ≥ 3/5 then (1/2 : Rat) else 0), reasonText r))
    ∧ (∀ q r, extractScore (.jsonObj (.numStr q) r) =
          ((if q ≥ 9/10 then 1 else if q ≥ 3/5 then (1/2 : Rat) else 0), reasonText r))
    ∧ extractScore .empty = (-1, "E_EVALUATOR_EMPTY_CONTENT")
    ∧ (∀ raw, extractScore (.invalidJson raw) = (-1, "E_EVALUATOR_INVALID_JSON: " ++ raw.take 200))
    ∧ (∀ r, extractScore (.jsonObj .absent r) = (-1, "E_EVALUATOR_SCORE_INVALID: " ++ reasonText r))
    ∧ (∀ r, extractScore (.jsonObj .uncoercible r) =
        (-1, "E_EVALUATOR_SCORE_INVALID: " ++ reasonText r)) := by
  refine ⟨?_, ?_, ?_, ?_, ?_, rfl, fun _ => rfl, fun _ => rfl, fun _ => rfl⟩
  · intro r; simp [extractScore]
  · intro r; norm_num [extractScore]
  · intro r; norm_num [extractScore]
  · intro q r h
    simp only [extractScore, if_neg h]
    by_cases h1 : q ≥ 9/10 <;> by_cases h2 : q ≥ 3/5 <;> simp [h1, h2]
  · intro q r
    simp only [extractScore]
    by_cases h1 : q ≥ 9/10 <;> by_cases h2 : q ≥ 3/5 <;> simp [h1, h2]

/-- C6 witness: the score 0.7 is outside {0, 0.5, 1} and bucketizes to 0.5
with the reason of the response. -/
theorem c6_theorem_witness :
    extractScore (.jsonObj (.num (7/10)) (some "close")) = (1/2, "close") := by
  have h := c6_theorem.2.2.2.1 (7/10) (some "close") (by norm_num)
  have hr : reasonText (some "close") = "close" := rfl
  rw [h, hr, if_neg (by norm_num), if_pos (by norm_num)]

/-- C7 counterexample: the numeric value 2e9 (above 1e9) is returned by the
code as-is — 2000000000 taken as milliseconds — whereas the seconds reading of
the claim demands 2000000000000; and the value 5 is multiplied by 1000 by the
code instead of being taken directly as milliseconds. The two lower branches
of the claim are swapped relative to the code. -/
theorem c7_counterexample :
    toEpochMsNum 2000000000 = 2000000000
    ∧ claimEpochMsNum 2000000000 = 2000000000000
    ∧ toEpochMsNum 5 = 5000
    ∧ claimEpochMsNum 5 = 5
    ∧ toEpochMsNum 2000000000 ≠ claimEpochMsNum 2000000000 := by
  refine ⟨?_, ?_, ?_, ?_, ?_⟩ <;> norm_num [toEpochMsNum, claimEpochMsNum, pyTrunc]

/-- C7 amended (numeric branch): a value above 1e12 is nanoseconds (truncated
division by 1e6), a value in (1e9, 1e12] is taken directly as milliseconds,
and a non-negative value of at most 1e9 is seconds (multiplied by 1000) — the
two lower interpretations are the reverse of the wording of the claim. ISO
strings and datetime values are handled by separate branches not modelled
here. -/
theorem c7_theorem (n : ℤ) :
    (1000000000000 < n → toEpochMsNum (n : Rat) = n / 1000000)
    ∧ (1000000000 < n → n ≤ 1000000000000 → toEpochMsNum (n : Rat) = n)
    ∧ (0 ≤ n → n ≤ 1000000000 → toEpochMsNum (n : Rat) = n * 1000) := by
  refine ⟨?_, ?_, ?_⟩
  · intro h
    have hc : ((1000000000000 : Rat) < (n : Rat)) := by exact_mod_cast h
    have hn : (0 : Rat) ≤ (n : Rat) / 1000000 := by positivity
    rw [toEpochMsNum, if_pos hc, pyTrunc, if_neg (by linarith)]
    have : ((1000000 : Rat) = ((1000000 : ℕ) : Rat)) := by norm_cast
    rw [this, Rat.floor_intCast_div_natCast]
    norm_num
  · intro h1 h2
    have hc1 : ¬ ((1000000000000 : Rat) < (n : Rat)) := by
      push_neg; exact_mod_cast h2
    have hc2 : ((1000000000 : Rat) < (n : Rat)) := by exact_mod_cast h1
    have hn : (0 : Rat) ≤ (n : Rat) := by linarith
    rw [toEpochMsNum, if_neg hc1, if_pos hc2, pyTrunc, if_neg (by linarith)]
    exact Int.floor_intCast n
  · intro h1 h2
    have hc1 : ¬ ((1000000000000 : Rat) < (n : Rat)) := by
      push_neg
      have : (n : Rat) ≤ 1000000000 := by exact_mod_cast h2
      linarith
    have hc2 : ¬ ((1000000000 : Rat) < (n : Rat)) := by
      push_neg; exact_mod_cast h2
    have hn : (0 : Rat) ≤ (n : Rat) * 1000 := by
      have : (0 : Rat) ≤ (n : Rat) := by exact_mod_cast h1
      linarith
    rw [toEpochMsNum, if_neg hc1, if_neg hc2, pyTrunc, if_neg (by linarith)]
    have : ((n : Rat) * 1000) = (((n * 1000 : ℤ)) : Rat) := by push_cast; ring
    rw [this, Int.floor_intCast]

/-- C7 witness: 2e18 nanoseconds map to 2e12 ms, 2e9 maps to itself, and 7e8
maps to 7e11 ms, through the amended theorem. -/
theorem c7_theorem_witness :
    toEpochMsNum ((2000000000000000000 : ℤ) : Rat) = 2000000000000
    ∧ toEpochMsNum ((2000000000 : ℤ) : Rat) = 2000000000
    ∧ toEpochMsNum ((700000000 : ℤ) : Rat) = 700000000000 := by
  refine ⟨?_, ?_, ?_⟩
  · have h := (c7_theorem 2000000000000000000).1 (by norm_num)
    rw [h]; decide
  · have h := (c7_theorem 2000000000).2.1 (by norm_num) (by norm_num)
    rw [h]
  · have h := (c7_theorem 700000000).2.2 (by norm_num) (by norm_num)
    rw [h]; decide

/-- C8: every run of the `handle_raw_message` gate logic obeys the idempotency
discipline — `already_processed` is checked first and before `acquire_processing`,
a successful run sets the persistent processed marker strictly before releasing
the in-flight marker, and a failing run releases the in-flight marker and
re-raises without ever setting the processed marker. -/
theorem c8_theorem (processOk : Bool) (st : GateState) :
    gateDiscipline (handleRawMessageGate processOk st) = true := by
  obtain ⟨h1, h2⟩ := st
  cases processOk <;> cases h1 <;> cases h2 <;> rfl

/-- C9 counterexample: when the sink `persist_spans` raises, the record is
appended to the in-memory index and reported as inserted while nothing is
persisted to storage within that call — one appended, zero persisted. -/
theorem c9_counterexample :
    (ingestSpans SinkOutcome.raises [1] (⟨[], []⟩ : SpanStoreState Nat)).1.mem = [1]
    ∧ (ingestSpans SinkOutcome.raises [1] (⟨[], []⟩ : SpanStoreState Nat)).1.storage = []
    ∧ (ingestSpans SinkOutcome.raises [1] (⟨[], []⟩ : SpanStoreState Nat)).2 = 1 :=
  ⟨rfl, rfl, rfl⟩

/-- C9 amended: when the sink persist succeeds, the counts appended to the
in-memory index, persisted to storage and reported as `inserted` coincide;
when the sink raises, the append and the reported count still equal the batch
size while zero records are persisted in that call and the exception is
swallowed. -/
theorem c9_theorem {α : Type} (spans : List α) (st : SpanStoreState α) :
    ((ingestSpans SinkOutcome.ok spans st).1.mem.length - st.mem.length
        = (ingestSpans SinkOutcome.ok spans st).1.storage.length - st.storage.length)
    ∧ ((ingestSpans SinkOutcome.ok spans st).1.mem.length - st.mem.length
        = (ingestSpans SinkOutcome.ok spans st).2)
    ∧ ((ingestSpans SinkOutcome.raises spans st).1.mem.length - st.mem.length
        = (ingestSpans SinkOutcome.raises spans st).2)
    ∧ (ingestSpans SinkOutcome.raises spans st).1.storage = st.storage := by
  by_cases h : spans.isEmpty
  · have he : spans = [] := List.isEmpty_iff.mp h
    subst he
    simp [ingestSpans]
  · refine ⟨?_, ?_, ?_, ?_⟩ <;> simp [ingestSpans, h]

/-- C10: an absent `schema_version` defaults to `v2` and the message is
accepted rather than rejected; `E_UNSUPPORTED_SCHEMA_VERSION` arises exactly
when an explicitly present `schema_version` differs from `v2`. -/
theorem c10_theorem (p : RawPayload) :
    parseMessage p =
      (match p.schemaVersion with
       | none =>
         Except.ok
           { messageType := p.messageType, schemaVersion := "v2", messageId := p.messageId.getD "" }
       | some v =>
         if v = "v2" then
           Except.ok
             { messageType := p.messageType, schemaVersion := v, messageId := p.messageId.getD "" }
         else Except.error ("E_UNSUPPORTED_SCHEMA_VERSION: " ++ v)) := by
  cases hv : p.schemaVersion with
  | none => simp [parseMessage, hv]
  | some v => by_cases h : v = "v2" <;> simp [parseMessage, hv, h]
